import Mathlib

/-!
Verification development for the diff/drift reporting core of the
`cdk_plan_action` repository (`src/src/main.ts`, current revision, the one at
the top of the file).  The embedding translates, from the source:

* the drift poller `detectStackDrift` (a start-all-then-poll loop with one
  shared 300 second wall-clock deadline and a 5 second sleep between polls of
  the same request),
* the report renderer `makeDiffMessage` (building the comment body string from
  the already-fetched snapshot of desired stacks, deployed stacks, template
  diffs and resource drift summaries),
* the tail of `run` that posts the comment (or aborts with no comment when the
  poller throws).

Network responses are modelled as explicit data: each drift-detection request
carries the list of status-poll responses the CloudFormation API would return
for it, each response tagged with the wall-clock time `new Date().getTime()`
would read at the deadline check that follows it.  The external template diff
formatter (`formatDifferences` of `@aws-cdk/cloudformation-diff`, which the
spec places out of scope as a supplied pure function) enters as the
`formatted` field of the `TemplateDiff` snapshot.
-/

namespace CdkPlan

/-- `StackDriftDetectionStatus` of the AWS SDK, as consumed by the poller. -/
inductive DetectionStatus
  | DETECTION_IN_PROGRESS
  | DETECTION_COMPLETE
  | DETECTION_FAILED
deriving DecidableEq, Repr

/-- Stack-level `StackDriftStatus` of the AWS SDK. -/
inductive StackDriftStatus
  | DRIFTED
  | IN_SYNC
  | NOT_CHECKED
  | UNKNOWN
deriving DecidableEq, Repr

/-- One response of `DescribeStackDriftDetectionStatusCommand`, together with
the wall-clock time (milliseconds) that `new Date().getTime()` reads at the
deadline check following this poll. -/
structure DriftPollResponse where
  DetectionStatus : DetectionStatus
  StackDriftStatus : StackDriftStatus
  time : Int
deriving DecidableEq, Repr

/-- Failures of the poller: the thrown
`new Error('Stack Drift Detection Timeout')`, and the bookkeeping case of an
execution trace that ends while a request is still in progress (a poll that
never returned; excluded by hypotheses wherever a claim is about completed
executions). -/
inductive DriftError
  | timeout
  | noResponse
deriving DecidableEq, Repr

/-- The inner `while (true)` loop of `detectStackDrift`
(src/src/main.ts:112-125): poll; stop at the first response whose
`DetectionStatus` is not `DETECTION_IN_PROGRESS`; otherwise throw once
`new Date().getTime() - driftDetectionStartTime > 300 * 1000`, else sleep
5000 ms and poll again.  `start` is `driftDetectionStartTime`, read once
before any detection request is issued. -/
def waitDriftDetection (start : Int) : List DriftPollResponse → Except DriftError DriftPollResponse
  | [] => Except.error DriftError.noResponse
  | r :: rest =>
    if r.DetectionStatus ≠ DetectionStatus.DETECTION_IN_PROGRESS then
      Except.ok r
    else if r.time - start > 300000 then
      Except.error DriftError.timeout
    else
      waitDriftDetection start rest

/-- `detectStackDrift` (src/src/main.ts:97-132), after all detection-start
requests have been issued: for each request in order, wait for its terminal
status, then OR the `StackDriftStatus === DRIFTED` test into the result.
`streams.get i` is the poll-response stream of the i-th started request. -/
def detectStackDrift (start : Int) : List (List DriftPollResponse) → Except DriftError Bool
  | [] => Except.ok false
  | s :: rest =>
    match waitDriftDetection start s with
    | Except.error e => Except.error e
    | Except.ok r =>
      match detectStackDrift start rest with
      | Except.error e => Except.error e
      | Except.ok b => Except.ok (decide (r.StackDriftStatus = StackDriftStatus.DRIFTED) || b)

/-- The terminal drift judgement of one request, read off its response stream:
the first response that is not `DETECTION_IN_PROGRESS`, tested for `DRIFTED`.
Used to state what the poller's boolean output is. -/
def terminalDrifted (s : List DriftPollResponse) : Bool :=
  match s.find? (fun r => decide (r.DetectionStatus ≠ DetectionStatus.DETECTION_IN_PROGRESS)) with
  | some r => decide (r.StackDriftStatus = StackDriftStatus.DRIFTED)
  | none => false

/-- A response stream trips the shared deadline: some poll returns
`DETECTION_IN_PROGRESS` at a wall-clock time more than 300000 ms past the
single `driftDetectionStartTime`, every earlier poll also being in progress
but within the deadline (so the loop actually reaches the tripping poll). -/
def timesOutOn (start : Int) (s : List DriftPollResponse) : Prop :=
  ∃ p r rest, s = p ++ r :: rest ∧
    (∀ q ∈ p, q.DetectionStatus = DetectionStatus.DETECTION_IN_PROGRESS ∧ q.time - start ≤ 300000) ∧
    r.DetectionStatus = DetectionStatus.DETECTION_IN_PROGRESS ∧ r.time - start > 300000

/-- The observable scheduling events of `detectStackDrift`: a
`DetectStackDriftCommand` sent for the stack with the given index, a
`DescribeStackDriftDetectionStatusCommand` poll for it, and an `await sleep`. -/
inductive DriftEvent
  | startDetection (stack : Nat)
  | poll (stack : Nat)
  | sleep (ms : Nat)
deriving DecidableEq, Repr

/-- Event trace of the inner polling loop for one request (index `stack`):
each iteration polls once; only an iteration that saw `DETECTION_IN_PROGRESS`
within the deadline sleeps 5000 ms and re-polls. -/
def waitDriftTrace (start : Int) (stack : Nat) : List DriftPollResponse → List DriftEvent
  | [] => []
  | r :: rest =>
    if r.DetectionStatus ≠ DetectionStatus.DETECTION_IN_PROGRESS then
      [DriftEvent.poll stack]
    else if r.time - start > 300000 then
      [DriftEvent.poll stack]
    else
      DriftEvent.poll stack :: DriftEvent.sleep 5000 :: waitDriftTrace start stack rest

/-- Event trace of the outer `for` loop of `detectStackDrift`: the requests
are polled one after the other, each to termination (or error, which aborts
the loop) before the next one is looked at. -/
def detectTrace (start : Int) (stack : Nat) : List (List DriftPollResponse) → List DriftEvent
  | [] => []
  | s :: rest =>
    match waitDriftDetection start s with
    | Except.error _ => waitDriftTrace start stack s
    | Except.ok _ => waitDriftTrace start stack s ++ detectTrace start (stack + 1) rest

/-- Full event trace of `detectStackDrift`: the first `for` loop issues every
`DetectStackDriftCommand` (one per stack, in order) before the second loop
makes any status poll. -/
def driftEvents (start : Int) (streams : List (List DriftPollResponse)) : List DriftEvent :=
  ((List.range streams.length).map DriftEvent.startDetection) ++ detectTrace start 0 streams

/-- The stack index of a poll event, `none` for the other events. -/
def eventStack : DriftEvent → Option Nat
  | DriftEvent.poll s => some s
  | _ => none

/-- The sequence of stack indices polled, in trace order. -/
def pollStacks (tr : List DriftEvent) : List Nat :=
  tr.filterMap eventStack

/-- Whether an event is the issuing of a detection-start request. -/
def isStartEvent : DriftEvent → Bool
  | DriftEvent.startDetection _ => true
  | _ => false

/-- `ResourceImpact` of `@aws-cdk/cloudformation-diff`, as matched by the
`switch (change?.changeImpact)` of the renderer. -/
inductive ResourceImpact
  | WILL_UPDATE
  | WILL_CREATE
  | WILL_REPLACE
  | MAY_REPLACE
  | WILL_DESTROY
  | WILL_ORPHAN
  | NO_CHANGE
deriving DecidableEq, Repr

/-- One entry of `templateDiff[stackName].resources`: the change impact plus
the optional new/old resource type fields the renderer reads. -/
structure ResourceChange where
  changeImpact : ResourceImpact
  newResourceType : Option String
  resourceType : Option String
deriving DecidableEq, Repr

/-- The slice of a `TemplateDiff` that `makeDiffMessage` consumes:
`differenceCount`, `isEmpty`, the per-logical-id `resources` map, and the
text that the external formatter `formatDifferences` would produce for it
(already stripped of ANSI escapes; the spec treats diff computation and
formatting as a supplied pure function, out of scope). -/
structure TemplateDiff where
  differenceCount : Nat
  isEmpty : Bool
  resources : List (String × ResourceChange)
  formatted : String
deriving DecidableEq, Repr

/-- The `TemplateDiff` the renderer would see for a stack name missing from
the diff map.  The source would crash there (`templateDiff[stackName]` is
`undefined`); `run` always populates the map for every desired stack, so the
default is only reachable on inconsistent inputs. -/
def defaultTemplateDiff : TemplateDiff :=
  ⟨0, true, [], ""⟩

/-- One resource declaration of a desired template; `resType` models its
JSON `Type` field (`Type` is not usable as a Lean field name). -/
structure TemplateResource where
  resType : Option String
deriving DecidableEq, Repr

/-- A desired template as the renderer reads it: its `Resources` object. -/
structure Template where
  Resources : List (String × TemplateResource)
deriving DecidableEq, Repr

/-- `DriftInformation` of a `StackResourceSummary`; the SDK's
`StackResourceDriftStatus` is a string union, kept as a string so that the
renderer's fall-through branch (`driftMsg = driftStatus ?? ''`) can be
modelled exactly. -/
structure DriftInformation where
  StackResourceDriftStatus : Option String
deriving DecidableEq, Repr

/-- The fields of an SDK `StackResourceSummary` that the renderer reads. -/
structure StackResourceSummary where
  LogicalResourceId : String
  ResourceType : Option String
  DriftInformation : Option DriftInformation
deriving DecidableEq, Repr

/-- The fields of an SDK `StackSummary` that the renderer reads. -/
structure StackSummary where
  StackName : String
  StackId : String
deriving DecidableEq, Repr

/-- The action's module-level configuration: the inputs read by
`core.getInput` at the top of main.ts plus the `process.env` values the
comment header interpolates. -/
structure ActionConfig where
  commentTitle : String
  enableDriftDetection : Bool
  awsRegion : String
  githubServerUrl : String
  githubRepository : String
  githubRunId : String
deriving DecidableEq, Repr

/-- `MakeDiffMessageOption` (src/src/main.ts:148-158): the already-fetched
snapshot handed to the renderer.  Maps are association lists in the JS
objects' insertion order; `Object.keys` enumerates them in that order.
`awsRegion` is carried for fidelity with the source interface, but the
renderer body reads the module-level `awsRegion` (the destructuring at
src/src/main.ts:161-170 omits it), modelled by `ActionConfig.awsRegion`. -/
structure MakeDiffMessageOption where
  stackNames : List String
  stackTemplates : List (String × Template)
  cfnStackNames : List String
  editedStackCount : Nat
  stackDriftDetected : Bool
  templateDiff : List (String × TemplateDiff)
  cfnStackResourcesSummaries : List (String × List (String × StackResourceSummary))
  cfnStacks : List StackSummary
  awsRegion : String
deriving DecidableEq, Repr

/-- Replace the `stackDriftDetected` field (how `run` feeds the poller's
boolean into the renderer option). -/
def setDriftFlag (o : MakeDiffMessageOption) (d : Bool) : MakeDiffMessageOption :=
  ⟨o.stackNames, o.stackTemplates, o.cfnStackNames, o.editedStackCount, d,
    o.templateDiff, o.cfnStackResourcesSummaries, o.cfnStacks, o.awsRegion⟩

/-- Replace the `editedStackCount` field. -/
def setEditedCount (o : MakeDiffMessageOption) (c : Nat) : MakeDiffMessageOption :=
  ⟨o.stackNames, o.stackTemplates, o.cfnStackNames, c, o.stackDriftDetected,
    o.templateDiff, o.cfnStackResourcesSummaries, o.cfnStacks, o.awsRegion⟩

/-- Characters that JavaScript's `encodeURI` leaves unescaped besides ASCII
letters and digits. -/
def uriMark : String :=
  ";,/?:@&=+$-_.!~*()#\x27"

/-- Whether `encodeURI` leaves the character as is. -/
def uriUnescaped (c : Char) : Bool :=
  c.isAlpha || c.isDigit || uriMark.contains c

/-- Upper-case hexadecimal digit. -/
def hexChar (n : Nat) : Char :=
  if n < 10 then Char.ofNat (48 + n) else Char.ofNat (55 + n)

/-- Percent-encode one character as its UTF-8 bytes, as `encodeURI` does. -/
def percentEncodeChar (c : Char) : String :=
  ((String.singleton c).toUTF8.toList.map
    (fun b => "%" ++ String.singleton (hexChar (b.toNat / 16)) ++ String.singleton (hexChar (b.toNat % 16)))).foldl
    (fun a s => a ++ s) ""

/-- JavaScript's `encodeURI` builtin, used by the renderer for console links. -/
def encodeURI (s : String) : String :=
  s.data.foldl (fun acc c => acc ++ (if uriUnescaped c then String.singleton c else percentEncodeChar c)) ""

/-- The stack-info console URL built at src/src/main.ts:224-226. -/
def stackInfoUrl (region stackId : String) : String :=
  "https://" ++ region ++ ".console.aws.amazon.com/cloudformation/home?region=" ++ region ++
    "#/stacks/stackinfo?stackId=" ++ encodeURI stackId

/-- The per-stack drift console URL built at src/src/main.ts:227-229 (note:
the source passes the stack name, not the stack id, to `encodeURI` here). -/
def stackDriftsUrl (region stackName : String) : String :=
  "https://" ++ region ++ ".console.aws.amazon.com/cloudformation/home?region=" ++ region ++
    "#/stacks/drifts?stackId=" ++ encodeURI stackName

/-- The per-resource drift deep link built at src/src/main.ts:304-306, scoped
to the stack id and the logical id. -/
def driftInfoUrl (region stackId logicalId : String) : String :=
  "https://" ++ region ++ ".console.aws.amazon.com/cloudformation/home?region=" ++ region ++
    "#/stacks/drifts/info?stackId=" ++ encodeURI stackId ++ "&logicalResourceId=" ++ encodeURI logicalId

/-- The `switch (change?.changeImpact)` of the row loop
(src/src/main.ts:273-296): impact → diff label; `NO_CHANGE`, any other value
and an absent change all fall to the empty label. -/
def diffLabel (change : Option ResourceChange) : String :=
  match change with
  | none => ""
  | some c =>
    match c.changeImpact with
    | ResourceImpact.WILL_UPDATE => "✏️ Update"
    | ResourceImpact.WILL_CREATE => "🆕 Create"
    | ResourceImpact.WILL_REPLACE => "♻️ Replace"
    | ResourceImpact.MAY_REPLACE => "♻️ May Replace"
    | ResourceImpact.WILL_DESTROY => "🔥 Destroy"
    | ResourceImpact.WILL_ORPHAN => "🗑 Remove"
    | ResourceImpact.NO_CHANGE => ""

/-- The drift-label chain of the row loop (src/src/main.ts:298-312):
`NOT_CHECKED` → warning; `MODIFIED` → alert with the deep link; `IN_SYNC` →
success; anything else falls through to `driftStatus ?? ''`, i.e. the raw
status string when present and the empty string when absent. -/
def driftLabel (region stackId logicalId : String) (driftStatus : Option String) : String :=
  if driftStatus = some "NOT_CHECKED" then
    "⚠ NOT_CHECKED"
  else if driftStatus = some "MODIFIED" then
    "[🚨 MODIFIED](" ++ driftInfoUrl region stackId logicalId ++ ")"
  else if driftStatus = some "IN_SYNC" then
    "✅ IN_SYNC"
  else
    (driftStatus).getD ""

/-- The drift-status → label table exactly as the spec's fixed mapping table
states it: `NOT_CHECKED` → warning, no link; `MODIFIED` → alert with the deep
link; `IN_SYNC` → success, no link; any **other or absent** value → empty
label. -/
def specDriftLabel (region stackId logicalId : String) (driftStatus : Option String) : String :=
  if driftStatus = some "NOT_CHECKED" then
    "⚠ NOT_CHECKED"
  else if driftStatus = some "MODIFIED" then
    "[🚨 MODIFIED](" ++ driftInfoUrl region stackId logicalId ++ ")"
  else if driftStatus = some "IN_SYNC" then
    "✅ IN_SYNC"
  else
    ""

/-- The spec's drift-label table amended to what the source does on the
fall-through: a present status outside the three known values is rendered as
its raw string; only an absent status gives the empty label. -/
def specDriftLabelAmended (region stackId logicalId : String) (driftStatus : Option String) : String :=
  match driftStatus with
  | none => ""
  | some s =>
    if s = "NOT_CHECKED" then "⚠ NOT_CHECKED"
    else if s = "MODIFIED" then "[🚨 MODIFIED](" ++ driftInfoUrl region stackId logicalId ++ ")"
    else if s = "IN_SYNC" then "✅ IN_SYNC"
    else s

/-- The `type` column resolution (src/src/main.ts:314-315):
`change?.newResourceType ?? change?.resourceType ??
stackTemplates[stackName].Resources[logicalId]?.Type ?? ''`. -/
def rowType (change : Option ResourceChange) (tmplType : Option String) : String :=
  ((change.bind ResourceChange.newResourceType).orElse
    (fun _ => (change.bind ResourceChange.resourceType).orElse (fun _ => tmplType))).getD ""

/-- The drift status of a logical id in a stack's resource map, via the
optional chain `cfnResources[logicalId]?.DriftInformation?.StackResourceDriftStatus`. -/
def resourceDriftStatus (cfnResources : List (String × StackResourceSummary)) (logicalId : String) : Option String :=
  ((cfnResources.lookup logicalId).bind StackResourceSummary.DriftInformation).bind
    DriftInformation.StackResourceDriftStatus

/-- The resource entries that survive the row loop's metadata filter
(src/src/main.ts:266-268): every deployed resource of the stack, in
`Object.keys` order, except those whose `ResourceType` is
`'AWS::CDK::Metadata'`.  These are exactly the entries rendered as rows. -/
def displayedResources (cfnResources : List (String × StackResourceSummary)) : List (String × StackResourceSummary) :=
  cfnResources.filter (fun e => decide (e.2.ResourceType ≠ some "AWS::CDK::Metadata"))

/-- Per-stack resource map as the renderer reads it:
`cfnStackResourcesSummaries[stackName] ?? {}`. -/
def stackResourcesOf (o : MakeDiffMessageOption) (stackName : String) : List (String × StackResourceSummary) :=
  (o.cfnStackResourcesSummaries.lookup stackName).getD []

/-- The logical ids of the rows the renderer emits for a stack. -/
def displayedRowIds (o : MakeDiffMessageOption) (stackName : String) : List String :=
  (displayedResources (stackResourcesOf o stackName)).map Prod.fst

/-- The per-stack classification (src/src/main.ts:200-206): `'new'` when the
name has no deployed counterpart, else `'diff'` when `differenceCount > 0`,
else `'not_changed'`. -/
def stackStatusOf (o : MakeDiffMessageOption) (stackName : String) : String :=
  if o.cfnStackNames.contains stackName then
    if ((o.templateDiff.lookup stackName).getD defaultTemplateDiff).differenceCount > 0 then "diff"
    else "not_changed"
  else "new"

/-- `hasStackDrift` (src/src/main.ts:209-212): some deployed resource of the
stack has drift status `MODIFIED`. -/
def hasStackDrift (o : MakeDiffMessageOption) (stackName : String) : Bool :=
  0 < ((stackResourcesOf o stackName).filter
    (fun e => decide (resourceDriftStatus (stackResourcesOf o stackName) e.1 = some "MODIFIED"))).length

/-- The `continue` guard of the stack loop (src/src/main.ts:213-215), kept
exactly as written: `status === 'not_checked' && hasStackDrift`.  The
classification can only be `'new'`, `'diff'` or `'not_changed'`, so this
condition never holds. -/
def shouldSkip (o : MakeDiffMessageOption) (stackName : String) : Bool :=
  (stackStatusOf o stackName == "not_checked") && hasStackDrift o stackName

/-- The stack names whose report section is actually emitted: the loop body
runs for every desired stack name (in order) that the `continue` guard does
not skip. -/
def renderedStacks (o : MakeDiffMessageOption) : List String :=
  o.stackNames.filter (fun n => !(shouldSkip o n))

/-- The comment title and the action-run link (src/src/main.ts:172-174). -/
def messageHeader (cfg : ActionConfig) : String :=
  cfg.commentTitle ++ "\n\n\n" ++ "[View GitHub Action]" ++
    "(" ++ cfg.githubServerUrl ++ "/" ++ cfg.githubRepository ++ "/actions/runs/" ++ cfg.githubRunId ++ ")\n\n"

/-- The constant legends block (src/src/main.ts:176-194). -/
def legends : String :=
  "<details>\n<summary>Legends</summary>\n\n> ### Emojis\n> - 🈚 No Change\n> - 🆕 New Resource\n> - ✏️ Update Resource\n> - ♻️ Replace Reosurce (CFn recreate the resource)\n> - 🗑 Logical Remove\n> - 🔥 Destory Physical Resource\n> \n> ### Drift\n> - ︎ ⚠ NOT_CHECKED （Not compatible resources）\n> - 🚨 MODIFIED （Stack\x27s actual configuration differs, or has drifted）\n> - ✅ IN_SYNC（No drift detected）\n> - Empty（Resources is not yet created）\n\n</details>\n\n"

/-- The summary banner (src/src/main.ts:197-199):
`### Stacks ${editedStackCount >= 0 ? '' : '(No Changes) '} ${stackDriftDetected ? '🚨 **Stack Drift Detected** 🚨' : ''}\n\n`.
The count itself is never interpolated, and the `(No Changes)` branch is
unreachable because the count is a non-negative tally. -/
def bannerStr (editedStackCount : Nat) (stackDriftDetected : Bool) : String :=
  "### Stacks " ++ (if editedStackCount ≥ 0 then "" else "(No Changes) ") ++ " " ++
    (if stackDriftDetected then "🚨 **Stack Drift Detected** 🚨" else "") ++ "\n\n"

/-- One table row of the resource table (src/src/main.ts:270-321), for a
resource entry that survived the metadata filter.  With drift detection the
row is `|Diff|Drift|Type|Logical ID|`, without it the drift column is
omitted. -/
def resourceRow (cfg : ActionConfig) (o : MakeDiffMessageOption) (stackName : String)
    (diff : TemplateDiff) (cfnResources : List (String × StackResourceSummary))
    (logicalId : String) : String :=
  let change := diff.resources.lookup logicalId
  let diffMsg := diffLabel change
  let stackId := ((o.cfnStacks.find? (fun s => s.StackName == stackName)).map StackSummary.StackId).getD ""
  let driftMsg := driftLabel cfg.awsRegion stackId logicalId (resourceDriftStatus cfnResources logicalId)
  let tmpl := (o.stackTemplates.lookup stackName).getD ⟨[]⟩
  let ty := rowType change ((tmpl.Resources.lookup logicalId).bind TemplateResource.resType)
  if cfg.enableDriftDetection then
    "|" ++ diffMsg ++ "|" ++ driftMsg ++ "|" ++ ty ++ "|" ++ logicalId ++ "|\n"
  else
    "|" ++ diffMsg ++ "|" ++ ty ++ "|" ++ logicalId ++ "|\n"

/-- The body of the stack loop for one stack name (src/src/main.ts:200-324,
minus the `continue` guard handled by `renderedStacks`): section heading
(with console links unless the stack is new), the collapsed cdk-diff block,
the table header (drift column only when drift detection is enabled) and one
row per non-metadata deployed resource. -/
def stackSection (cfg : ActionConfig) (o : MakeDiffMessageOption) (stackName : String) : String :=
  let status := stackStatusOf o stackName
  let cfnResources := stackResourcesOf o stackName
  let diff := (o.templateDiff.lookup stackName).getD defaultTemplateDiff
  let emoji := if status = "new" then "🆕" else if status = "diff" then "✏️" else "🈚"
  let headerLine :=
    if status ≠ "new" then
      let stackId := ((o.cfnStacks.find? (fun s => s.StackName == stackName)).map StackSummary.StackId).getD ""
      "#### " ++ emoji ++ " [" ++ stackName ++ "](" ++ stackInfoUrl cfg.awsRegion stackId ++
        ") [(Drift Detection)](" ++ stackDriftsUrl cfg.awsRegion stackName ++ ")\n"
    else
      "#### " ++ emoji ++ " " ++ stackName ++ "\n"
  let formattedDiff := if diff.isEmpty then "There were no differences" else diff.formatted
  let diffDetails :=
    "<details>\n" ++ "<summary>cdk diff</summary>\n\n" ++ "```\n" ++ formattedDiff ++ "\n```\n\n" ++ "</details>\n\n"
  let tableHeader :=
    if cfg.enableDriftDetection then "|Diff|Drift|Type|Logical ID|\n|---|---|---|---|\n"
    else "|Diff|Type|Logical ID|\n|---|---|---|\n"
  let rows := String.join ((displayedResources cfnResources).map
    (fun e => resourceRow cfg o stackName diff cfnResources e.1))
  headerLine ++ diffDetails ++ tableHeader ++ rows ++ "\n\n\n"

/-- The concatenation of the per-stack sections, in the desired list's order. -/
def stacksBody (cfg : ActionConfig) (o : MakeDiffMessageOption) : String :=
  String.join ((renderedStacks o).map (stackSection cfg o))

/-- `makeDiffMessage` (src/src/main.ts:160-327): title and run link, legends,
summary banner, then the per-stack sections. -/
def makeDiffMessage (cfg : ActionConfig) (o : MakeDiffMessageOption) : String :=
  messageHeader cfg ++ legends ++ bannerStr o.editedStackCount o.stackDriftDetected ++ stacksBody cfg o

/-- The edited-stack tally of `run` (src/src/main.ts:64-68): the number of
desired stacks whose diff has a truthy `differenceCount`. -/
def computeEditedStackCount (stackNames : List String) (templateDiff : List (String × TemplateDiff)) : Nat :=
  (stackNames.filter (fun n => decide (((templateDiff.lookup n).getD defaultTemplateDiff).differenceCount ≠ 0))).length

/-- The tail of `run` (src/src/main.ts:62-95) from the diff tally onwards:
count edited stacks, run drift detection when enabled (a thrown poller error
propagates, aborting the run before any comment is posted — the final catch
only calls `core.setFailed`), then render and post the comment.  `Except.ok`
carries the posted comment body; `Except.error` is a run that posted
nothing. -/
def run (cfg : ActionConfig) (o : MakeDiffMessageOption) (start : Int)
    (streams : List (List DriftPollResponse)) : Except DriftError String :=
  let edited := computeEditedStackCount o.stackNames o.templateDiff
  if cfg.enableDriftDetection then
    match detectStackDrift start streams with
    | Except.error e => Except.error e
    | Except.ok d => Except.ok (makeDiffMessage cfg (setEditedCount (setDriftFlag o d) edited))
  else
    Except.ok (makeDiffMessage cfg (setEditedCount (setDriftFlag o false) edited))

/-- A concrete action configuration (drift detection enabled) used by
witnesses and counterexamples. -/
def exConfig : ActionConfig :=
  ⟨"🌎 Cloudformation Stack Diff", true, "us-east-1", "https://github.com", "me/repo", "42"⟩

/-- A concrete renderer snapshot with one desired stack `A` that has no
deployed counterpart (classification `new`), whose desired template declares
the resource `R1` of type `T1`, and whose diff marks `R1` as `WILL_CREATE`. -/
def exNewOption : MakeDiffMessageOption :=
  ⟨["A"],
   [("A", ⟨[("R1", ⟨some "T1"⟩)]⟩)],
   [],
   1,
   false,
   [("A", ⟨1, false, [("R1", ⟨ResourceImpact.WILL_CREATE, some "T1", none⟩)], "+ R1"⟩)],
   [],
   [],
   "us-east-1"⟩

/-- A concrete renderer snapshot with one deployed stack `C` that is fully
unchanged (`differenceCount = 0`), has no resources at all, and no drift. -/
def exUnchangedOption : MakeDiffMessageOption :=
  ⟨["C"],
   [("C", ⟨[]⟩)],
   ["C"],
   0,
   false,
   [("C", ⟨0, true, [], ""⟩)],
   [("C", [])],
   [⟨"C", "arn:aws:cloudformation:us-east-1:1:stack/C/x"⟩],
   "us-east-1"⟩

/-- A terminal (COMPLETE, IN_SYNC) poll response observed at time `t`. -/
def doneInSync (t : Int) : DriftPollResponse :=
  ⟨DetectionStatus.DETECTION_COMPLETE, StackDriftStatus.IN_SYNC, t⟩

/-- A terminal (COMPLETE, DRIFTED) poll response observed at time `t`. -/
def doneDrifted (t : Int) : DriftPollResponse :=
  ⟨DetectionStatus.DETECTION_COMPLETE, StackDriftStatus.DRIFTED, t⟩

/-- An in-progress poll response observed at time `t`. -/
def inProgress (t : Int) : DriftPollResponse :=
  ⟨DetectionStatus.DETECTION_IN_PROGRESS, StackDriftStatus.NOT_CHECKED, t⟩

/-- Two requests: stack 0 is slow (in progress at its first poll, terminal at
its second), stack 1 is fast (terminal from the outset). -/
def exSlowFast : List (List DriftPollResponse) :=
  [[inProgress 0, doneInSync 5000], [doneDrifted 0]]

/-- A deployed resource `R1` whose drift status is `MODIFIED`. -/
def exR1 : StackResourceSummary :=
  ⟨"R1", some "AWS::S3::Bucket", some ⟨some "MODIFIED"⟩⟩

/-- The synthesis metadata pseudo-resource as it appears in a deployed
resource listing. -/
def exMeta : StackResourceSummary :=
  ⟨"Meta1", some "AWS::CDK::Metadata", some ⟨some "IN_SYNC"⟩⟩

/-- A concrete renderer snapshot with one deployed, changed stack `B` whose
resources are `R1` (drifted) and the metadata pseudo-resource. -/
def exDriftOption : MakeDiffMessageOption :=
  ⟨["B"],
   [("B", ⟨[("R1", ⟨some "AWS::S3::Bucket"⟩)]⟩)],
   ["B"],
   1,
   true,
   [("B", ⟨1, false, [("R1", ⟨ResourceImpact.WILL_REPLACE, some "T1b", some "T1"⟩)], "~ R1"⟩)],
   [("B", [("R1", exR1), ("Meta1", exMeta)])],
   [⟨"B", "arn:aws:cloudformation:us-east-1:1:stack/B/y"⟩],
   "us-east-1"⟩

/-- A single request that is still in progress when polled 300001 ms after
the shared start time. -/
def exTimeoutStream : List DriftPollResponse :=
  [inProgress 300001]

/-- Replace the `templateDiff` and `stackTemplates` fields (used to state
that the rendered row set does not depend on them). -/
def setDiffAndTemplates (o : MakeDiffMessageOption) (d : List (String × TemplateDiff))
    (t : List (String × Template)) : MakeDiffMessageOption :=
  ⟨o.stackNames, t, o.cfnStackNames, o.editedStackCount, o.stackDriftDetected, d,
    o.cfnStackResourcesSummaries, o.cfnStacks, o.awsRegion⟩

/-- If the polling loop returns a response, it is the first response of the
stream whose detection status is terminal. -/
theorem waitDriftDetection_ok_find (start : Int) (s : List DriftPollResponse) (r : DriftPollResponse)
    (h : waitDriftDetection start s = Except.ok r) :
    s.find? (fun x => decide (x.DetectionStatus ≠ DetectionStatus.DETECTION_IN_PROGRESS)) = some r := by
  induction s with
  | nil => simp [waitDriftDetection] at h
  | cons x s' ih =>
    by_cases hx : x.DetectionStatus = DetectionStatus.DETECTION_IN_PROGRESS
    · by_cases ht : x.time - start > 300000
      · simp [waitDriftDetection, hx, ht] at h
      · simp only [waitDriftDetection] at h
        rw [if_neg (by simp [hx]), if_neg ht] at h
        simpa [List.find?_cons, hx] using ih h
    · simp only [waitDriftDetection] at h
      rw [if_pos hx] at h
      have hr : x = r := Except.ok.inj h
      subst hr
      simp [List.find?_cons, hx]

/-- The polling loop throws the timeout error exactly when the stream has a
run of in-progress responses within the deadline followed by an in-progress
response observed past the shared deadline. -/
theorem waitDriftDetection_timeout_iff (start : Int) (s : List DriftPollResponse) :
    waitDriftDetection start s = Except.error DriftError.timeout ↔ timesOutOn start s := by
  induction s with
  | nil =>
    constructor
    · intro h; simp [waitDriftDetection] at h
    · rintro ⟨p, r, rest, hs, -, -, -⟩
      exact absurd hs (by simp)
  | cons x s' ih =>
    by_cases hx : x.DetectionStatus = DetectionStatus.DETECTION_IN_PROGRESS
    · by_cases ht : x.time - start > 300000
      · constructor
        · intro _
          exact ⟨[], x, s', rfl, by simp, hx, ht⟩
        · intro _
          simp only [waitDriftDetection]
          rw [if_neg (by simp [hx]), if_pos ht]
      · have hw : waitDriftDetection start (x :: s') = waitDriftDetection start s' := by
          simp only [waitDriftDetection]
          rw [if_neg (by simp [hx]), if_neg ht]
        rw [hw, ih]
        constructor
        · rintro ⟨p, r, rest, hs, hp, hr, hrt⟩
          refine ⟨x :: p, r, rest, by rw [hs, List.cons_append], ?_, hr, hrt⟩
          intro q hq
          rcases List.mem_cons.mp hq with h1 | h1
          · subst h1; exact ⟨hx, le_of_not_lt ht⟩
          · exact hp q h1
        · rintro ⟨p, r, rest, hs, hp, hr, hrt⟩
          cases p with
          | nil =>
            simp only [List.nil_append, List.cons.injEq] at hs
            rcases hs with ⟨hxr, hs'⟩
            exact absurd (hxr ▸ hrt) ht
          | cons y p' =>
            simp only [List.cons_append, List.cons.injEq] at hs
            rcases hs with ⟨hxy, hs'⟩
            exact ⟨p', r, rest, hs', fun q hq => hp q (List.mem_cons_of_mem y hq), hr, hrt⟩
    · constructor
      · intro h
        simp only [waitDriftDetection] at h
        rw [if_pos hx] at h
        exact Except.noConfusion h
      · rintro ⟨p, r, rest, hs, hp, hr, hrt⟩
        cases p with
        | nil =>
          simp only [List.nil_append, List.cons.injEq] at hs
          exact absurd (hs.1 ▸ hr) hx
        | cons y p' =>
          simp only [List.cons_append, List.cons.injEq] at hs
          exact absurd (hs.1 ▸ (hp y (List.mem_cons_self y p')).1) hx

/-- When the whole poller returns a boolean, every request's stream contains
a terminal response. -/
theorem detectStackDrift_ok_terminal (start : Int) (streams : List (List DriftPollResponse)) (b : Bool)
    (h : detectStackDrift start streams = Except.ok b) :
    ∀ s ∈ streams, ∃ r, r ∈ s ∧ r.DetectionStatus ≠ DetectionStatus.DETECTION_IN_PROGRESS := by
  induction streams generalizing b with
  | nil => intro s hs; simp at hs
  | cons s0 rest ih =>
    cases hw : waitDriftDetection start s0 with
    | error e =>
      simp only [detectStackDrift, hw] at h
      exact Except.noConfusion h
    | ok r =>
      cases hr : detectStackDrift start rest with
      | error e =>
        simp only [detectStackDrift, hw, hr] at h
        exact Except.noConfusion h
      | ok b' =>
        intro s hs
        rcases List.mem_cons.mp hs with h1 | h1
        · subst h1
          have hfind := waitDriftDetection_ok_find start s r hw
          exact ⟨r, List.mem_of_find?_eq_some hfind, by simpa using List.find?_some hfind⟩
        · exact ih b' hr s h1

/-- Every event of one request's polling trace is a poll of that request or
the fixed 5000 ms sleep. -/
theorem waitDriftTrace_mem (start : Int) (k : Nat) (s : List DriftPollResponse) (e : DriftEvent)
    (h : e ∈ waitDriftTrace start k s) : e = DriftEvent.poll k ∨ e = DriftEvent.sleep 5000 := by
  induction s with
  | nil => simp [waitDriftTrace] at h
  | cons x s' ih =>
    simp only [waitDriftTrace] at h
    split at h
    · simp only [List.mem_singleton] at h; exact Or.inl h
    · split at h
      · simp only [List.mem_singleton] at h; exact Or.inl h
      · rcases List.mem_cons.mp h with h1 | h1
        · exact Or.inl h1
        · rcases List.mem_cons.mp h1 with h2 | h2
          · exact Or.inr h2
          · exact ih h2

/-- Every event of the outer polling loop's trace is a poll of a request with
index at least `k`, or the fixed 5000 ms sleep. -/
theorem detectTrace_mem (start : Int) (k : Nat) (streams : List (List DriftPollResponse)) (e : DriftEvent)
    (h : e ∈ detectTrace start k streams) :
    (∃ j, k ≤ j ∧ e = DriftEvent.poll j) ∨ e = DriftEvent.sleep 5000 := by
  induction streams generalizing k with
  | nil => simp [detectTrace] at h
  | cons s rest ih =>
    cases hw : waitDriftDetection start s with
    | error err =>
      simp only [detectTrace, hw] at h
      rcases waitDriftTrace_mem start k s e h with h1 | h1
      · exact Or.inl ⟨k, le_refl k, h1⟩
      · exact Or.inr h1
    | ok r =>
      simp only [detectTrace, hw] at h
      rcases List.mem_append.mp h with h1 | h1
      · rcases waitDriftTrace_mem start k s e h1 with h2 | h2
        · exact Or.inl ⟨k, le_refl k, h2⟩
        · exact Or.inr h2
      · rcases ih (k + 1) h1 with ⟨j, hj, he⟩ | h2
        · exact Or.inl ⟨j, le_trans (Nat.le_succ k) hj, he⟩
        · exact Or.inr h2

/-- Every poll in one request's trace targets that request. -/
theorem pollStacks_waitDriftTrace (start : Int) (k : Nat) (s : List DriftPollResponse) (m : Nat)
    (h : m ∈ pollStacks (waitDriftTrace start k s)) : m = k := by
  rcases List.mem_filterMap.mp h with ⟨e, he, hme⟩
  rcases waitDriftTrace_mem start k s e he with h1 | h1 <;> subst h1
  · exact (Option.some.inj hme).symm
  · simp [eventStack] at hme

/-- The sequence of polled request indices is nondecreasing and bounded below
by the first index: requests are polled one after the other, in start
order. -/
theorem pollStacks_detectTrace_sorted (start : Int) (k : Nat) (streams : List (List DriftPollResponse)) :
    List.Sorted (· ≤ ·) (pollStacks (detectTrace start k streams)) ∧
    ∀ m ∈ pollStacks (detectTrace start k streams), k ≤ m := by
  induction streams generalizing k with
  | nil =>
    constructor
    · simp [detectTrace, pollStacks]
    · simp [detectTrace, pollStacks]
  | cons s rest ih =>
    cases hw : waitDriftDetection start s with
    | error err =>
      have hq : detectTrace start k (s :: rest) = waitDriftTrace start k s := by
        simp [detectTrace, hw]
      rw [hq]
      constructor
      · apply List.pairwise_of_forall_mem_list
        intro a ha b hb
        rw [pollStacks_waitDriftTrace start k s a ha, pollStacks_waitDriftTrace start k s b hb]
      · intro m hm
        exact le_of_eq (pollStacks_waitDriftTrace start k s m hm).symm
    | ok r =>
      have hq : detectTrace start k (s :: rest) = waitDriftTrace start k s ++ detectTrace start (k + 1) rest := by
        simp [detectTrace, hw]
      have hps : pollStacks (detectTrace start k (s :: rest)) =
          pollStacks (waitDriftTrace start k s) ++ pollStacks (detectTrace start (k + 1) rest) := by
        rw [hq]
        unfold pollStacks
        exact List.filterMap_append _ _ _
      rw [hps]
      constructor
      · apply List.pairwise_append.mpr
        refine ⟨?_, (ih (k + 1)).1, ?_⟩
        · apply List.pairwise_of_forall_mem_list
          intro a ha b hb
          rw [pollStacks_waitDriftTrace start k s a ha, pollStacks_waitDriftTrace start k s b hb]
        · intro a ha b hb
          rw [pollStacks_waitDriftTrace start k s a ha]
          exact le_trans (Nat.le_succ k) ((ih (k + 1)).2 b hb)
      · intro m hm
        rcases List.mem_append.mp hm with h1 | h1
        · exact le_of_eq (pollStacks_waitDriftTrace start k s m h1).symm
        · exact le_trans (Nat.le_succ k) ((ih (k + 1)).2 m h1)

/-- C1 (counterexample): a `NEW` stack whose desired template declares the
resource `R1` — with diff impact `WILL_CREATE`, which is not `NONE` — renders
no row at all: the row loop enumerates only the deployed resource map, which
is empty for a stack with no deployed counterpart, so neither the declared
resources nor the diff-only ids yield rows. -/
theorem new_stack_declared_resource_has_no_row :
    stackStatusOf exNewOption "A" = "new" ∧
    ((exNewOption.stackTemplates.lookup "A").getD ⟨[]⟩).Resources.map Prod.fst = ["R1"] ∧
    (((exNewOption.templateDiff.lookup "A").getD defaultTemplateDiff).resources.lookup "R1").map
      ResourceChange.changeImpact = some ResourceImpact.WILL_CREATE ∧
    displayedRowIds exNewOption "A" = [] := by
  refine ⟨rfl, rfl, rfl, rfl⟩

/-- C1 (amended): for every stack, whatever its classification, the logical
ids rendered as rows are exactly the ids of the deployed resource entries
whose resource type is not the metadata marker — ids appearing only in the
desired template or only in the diff never yield a row, and the row set does
not depend on the diff or on the desired templates at all. -/
theorem rowIds_characterization (o : MakeDiffMessageOption) (stackName id : String) :
    (id ∈ displayedRowIds o stackName ↔
      ∃ r, (id, r) ∈ stackResourcesOf o stackName ∧ r.ResourceType ≠ some "AWS::CDK::Metadata") ∧
    (∀ d t, displayedRowIds (setDiffAndTemplates o d t) stackName = displayedRowIds o stackName) := by
  constructor
  · unfold displayedRowIds displayedResources
    constructor
    · intro h
      rcases List.mem_map.mp h with ⟨e, he, hid⟩
      have hp := List.of_mem_filter he
      have hm := List.mem_of_mem_filter he
      refine ⟨e.2, ?_, of_decide_eq_true hp⟩
      rw [← hid, Prod.mk.eta]
      exact hm
    · rintro ⟨r, hmem, hne⟩
      exact List.mem_map.mpr ⟨(id, r), List.mem_filter.mpr ⟨hmem, decide_eq_true hne⟩, rfl⟩
  · intro d t
    rfl

/-- C1 (witness): in the concrete changed-stack snapshot, `R1` is rendered
because it is deployed with a non-metadata type. -/
theorem rowIds_characterization_witness :
    "R1" ∈ displayedRowIds exDriftOption "B" ∧
    (∃ r, ("R1", r) ∈ stackResourcesOf exDriftOption "B" ∧ r.ResourceType ≠ some "AWS::CDK::Metadata") := by
  refine ⟨by decide, (rowIds_characterization exDriftOption "B" "R1").1.mp (by decide)⟩

/-- C2 (counterexample): a deployed stack that is fully unchanged
(`differenceCount = 0`), has no resource with MODIFIED drift, and has no
resources at all is still rendered — the claimed omission never happens. -/
theorem empty_unchanged_stack_still_rendered :
    stackStatusOf exUnchangedOption "C" = "not_changed" ∧
    ((exUnchangedOption.templateDiff.lookup "C").getD defaultTemplateDiff).differenceCount = 0 ∧
    stackResourcesOf exUnchangedOption "C" = [] ∧
    hasStackDrift exUnchangedOption "C" = false ∧
    renderedStacks exUnchangedOption = ["C"] := by
  refine ⟨rfl, rfl, rfl, rfl, rfl⟩

/-- C2 (amended): no stack section is ever omitted.  The `continue` guard
compares the classification against `'not_checked'`, a value the
classification never takes (it is always `'new'`, `'diff'` or
`'not_changed'`), so every desired stack — in particular every UNCHANGED
stack with MODIFIED resource drift — gets a section, and the rendered body is
the concatenation of one section per desired stack name. -/
theorem no_stack_section_is_omitted (cfg : ActionConfig) (o : MakeDiffMessageOption) :
    renderedStacks o = o.stackNames ∧
    stacksBody cfg o = String.join (o.stackNames.map (stackSection cfg o)) := by
  have hskip : ∀ n, shouldSkip o n = false := by
    intro n
    have hs : stackStatusOf o n = "new" ∨ stackStatusOf o n = "diff" ∨ stackStatusOf o n = "not_changed" := by
      unfold stackStatusOf
      split
      · split
        · exact Or.inr (Or.inl rfl)
        · exact Or.inr (Or.inr rfl)
      · exact Or.inl rfl
    have hne : (stackStatusOf o n == "not_checked") = false := by
      rcases hs with h | h | h <;> rw [h] <;> rfl
    unfold shouldSkip
    rw [hne, Bool.false_and]
  have hr : renderedStacks o = o.stackNames := by
    unfold renderedStacks
    apply List.filter_eq_self.mpr
    intro n _
    rw [hskip n]
    rfl
  exact ⟨hr, by unfold stacksBody; rw [hr]⟩

/-- C3 (counterexample): a present drift status outside the three known
values — here `DELETED` — is rendered as its raw status string, not as the
empty label the spec's table prescribes for "any other value". -/
theorem deleted_drift_status_label_not_empty :
    driftLabel "us-east-1" "sid" "R1" (some "DELETED") = "DELETED" ∧
    specDriftLabel "us-east-1" "sid" "R1" (some "DELETED") = "" := by
  refine ⟨rfl, rfl⟩

/-- C3 (amended): the per-resource drift label follows the spec's table
amended on the fall-through: `NOT_CHECKED` → warning, `MODIFIED` → alert with
the deep link scoped to stack id and logical id, `IN_SYNC` → success, any
**other present** status → its raw string, and only an **absent** status →
the empty label. -/
theorem driftLabel_matches_amended_table (region stackId logicalId : String) (st : Option String) :
    driftLabel region stackId logicalId st = specDriftLabelAmended region stackId logicalId st := by
  cases st with
  | none => rfl
  | some s =>
    unfold driftLabel specDriftLabelAmended
    by_cases h1 : s = "NOT_CHECKED"
    · simp [h1]
    · by_cases h2 : s = "MODIFIED"
      · simp [h1, h2]
      · by_cases h3 : s = "IN_SYNC"
        · simp [h1, h2, h3]
        · simp [h1, h2, h3]

/-- C7 (counterexample): the banner — and with it the whole rendered body —
is unchanged when the edited-stack count changes, so the body cannot be
reporting the count (the `(No Changes)` alternative is dead and the number is
never interpolated; the count only leaves the run as the
`edited-stack-count` action output). -/
theorem banner_ignores_edited_stack_count :
    bannerStr 0 false = bannerStr 5 false ∧
    makeDiffMessage exConfig (setEditedCount exUnchangedOption 0) =
      makeDiffMessage exConfig (setEditedCount exUnchangedOption 5) := by
  refine ⟨rfl, rfl⟩

/-- C7 (amended): the rendered body contains the summary banner, the banner
does not depend on the edited-stack count (its count-conditional branch is
dead because the count is a non-negative tally), and it shows the drift
marker exactly when the overall drift flag is set. -/
theorem banner_drift_marker_and_count_invariance (cfg : ActionConfig) (o : MakeDiffMessageOption) :
    (∃ pre post, makeDiffMessage cfg o = pre ++ bannerStr o.editedStackCount o.stackDriftDetected ++ post) ∧
    (∀ c d, bannerStr c d = bannerStr 0 d) ∧
    bannerStr 0 true = "### Stacks  🚨 **Stack Drift Detected** 🚨\n\n" ∧
    bannerStr 0 false = "### Stacks  \n\n" := by
  refine ⟨⟨messageHeader cfg ++ legends, stacksBody cfg o, rfl⟩, ?_, rfl, rfl⟩
  intro c d
  unfold bannerStr
  rw [if_pos (Nat.zero_le c), if_pos (Nat.zero_le 0)]

/-- C8: a resource whose deployed resource type is the synthesis metadata
marker `AWS::CDK::Metadata` never survives the row filter, whatever its diff
impact or drift status — the rows rendered by `stackSection` are built from
`displayedResources` only. -/
theorem metadata_resources_never_rendered (o : MakeDiffMessageOption) (stackName : String)
    (e : String × StackResourceSummary)
    (h : e ∈ displayedResources (stackResourcesOf o stackName)) :
    e.2.ResourceType ≠ some "AWS::CDK::Metadata" := by
  unfold displayedResources at h
  simpa using List.of_mem_filter h

/-- C8 (witness): the non-metadata resource `R1` of the concrete snapshot is
rendered and indeed is not the metadata marker. -/
theorem metadata_resources_never_rendered_witness :
    (("R1", exR1) : String × StackResourceSummary).2.ResourceType ≠ some "AWS::CDK::Metadata" :=
  metadata_resources_never_rendered exDriftOption "B" ("R1", exR1) (by decide)

/-- C9: the renderer is a pure function of the configuration and the report
snapshot: equal inputs render byte-identical output. -/
theorem makeDiffMessage_deterministic (cfg : ActionConfig) (o₁ o₂ : MakeDiffMessageOption)
    (h : o₁ = o₂) : makeDiffMessage cfg o₁ = makeDiffMessage cfg o₂ := by
  rw [h]

/-- C9 (witness): rendering the concrete snapshot twice gives the same
text. -/
theorem makeDiffMessage_deterministic_witness :
    makeDiffMessage exConfig exNewOption = makeDiffMessage exConfig exNewOption :=
  makeDiffMessage_deterministic exConfig exNewOption exNewOption rfl

/-- C4: the poller throws the Timeout error exactly when some status poll
observes `DETECTION_IN_PROGRESS` at a wall-clock time more than 300000 ms
(300 seconds) past the single `driftDetectionStartTime` shared by all
requests (`timesOutOn` measures every request's polls against that one start
time, never per request); and when the whole detection errors with the
timeout, the run errors identically — it returns no boolean drift result and
posts no comment. -/
theorem timeout_shared_deadline_and_aborts_run (start : Int) (s : List DriftPollResponse)
    (streams : List (List DriftPollResponse)) (cfg : ActionConfig) (o : MakeDiffMessageOption) :
    (waitDriftDetection start s = Except.error DriftError.timeout ↔ timesOutOn start s) ∧
    (cfg.enableDriftDetection = true →
      detectStackDrift start streams = Except.error DriftError.timeout →
      run cfg o start streams = Except.error DriftError.timeout ∧
      ∀ b, detectStackDrift start streams ≠ Except.ok b) := by
  refine ⟨waitDriftDetection_timeout_iff start s, ?_⟩
  intro hen hto
  constructor
  · unfold run
    rw [hen]
    simp only [if_true, hto]
  · intro b hb
    rw [hto] at hb
    exact Except.noConfusion hb

/-- C4 (witness): a single request still in progress 300001 ms after the
shared start trips the deadline; the run aborts with the timeout and posts
nothing. -/
theorem timeout_shared_deadline_witness :
    run exConfig exUnchangedOption 0 [exTimeoutStream] = Except.error DriftError.timeout ∧
    timesOutOn 0 exTimeoutStream := by
  have h := timeout_shared_deadline_and_aborts_run 0 exTimeoutStream [exTimeoutStream] exConfig exUnchangedOption
  exact ⟨(h.2 rfl rfl).1, h.1.mp rfl⟩

/-- C5 (counterexample): polling is sequential, not concurrent.  With stack 0
slow (in progress at its first poll, terminal only at its second) and stack 1
terminal from the outset, the event trace polls stack 1 for the first time
only after stack 0 has been polled to termination (two polls with a sleep
between them), although stack 1's very first response is already terminal —
a slow stack does delay the observation of a faster one. -/
theorem fast_stack_polled_after_slow_stack :
    driftEvents 0 exSlowFast =
      [DriftEvent.startDetection 0, DriftEvent.startDetection 1,
       DriftEvent.poll 0, DriftEvent.sleep 5000, DriftEvent.poll 0, DriftEvent.poll 1] ∧
    pollStacks (detectTrace 0 0 exSlowFast) = [0, 0, 1] ∧
    (exSlowFast.getD 0 []).map DriftPollResponse.DetectionStatus =
      [DetectionStatus.DETECTION_IN_PROGRESS, DetectionStatus.DETECTION_COMPLETE] ∧
    (exSlowFast.getD 1 []).map DriftPollResponse.DetectionStatus =
      [DetectionStatus.DETECTION_COMPLETE] := by
  refine ⟨rfl, rfl, rfl, rfl⟩

/-- C5 (amended): every detection-start request is issued before any status
poll (the trace's first `streams.length` events are exactly the start events
and no start event occurs later); the only sleeps are the fixed 5000 ms
polling interval; the requests are polled **sequentially in start order**
(the polled indices are nondecreasing — each request is polled to a terminal
response before the next is polled at all, so a slow stack delays a faster
later one); and the poller only returns a boolean once every request's
stream reached a terminal response. -/
theorem polling_sequential_structure (start : Int) (streams : List (List DriftPollResponse)) :
    (driftEvents start streams).take streams.length =
      (List.range streams.length).map DriftEvent.startDetection ∧
    (∀ e ∈ (driftEvents start streams).drop streams.length, isStartEvent e = false) ∧
    (∀ e ∈ driftEvents start streams, ∀ ms, e = DriftEvent.sleep ms → ms = 5000) ∧
    List.Sorted (· ≤ ·) (pollStacks ((driftEvents start streams).drop streams.length)) ∧
    (∀ b, detectStackDrift start streams = Except.ok b →
      ∀ s ∈ streams, ∃ r, r ∈ s ∧ r.DetectionStatus ≠ DetectionStatus.DETECTION_IN_PROGRESS) := by
  have hlen : ((List.range streams.length).map DriftEvent.startDetection).length = streams.length := by
    simp
  have htake : (driftEvents start streams).take streams.length =
      (List.range streams.length).map DriftEvent.startDetection := by
    unfold driftEvents
    exact List.take_left' hlen
  have hdrop : (driftEvents start streams).drop streams.length = detectTrace start 0 streams := by
    unfold driftEvents
    exact List.drop_left' hlen
  refine ⟨htake, ?_, ?_, ?_, ?_⟩
  · rw [hdrop]
    intro e he
    rcases detectTrace_mem start 0 streams e he with ⟨j, -, hj⟩ | hj <;> subst hj <;> rfl
  · intro e he ms hms
    subst hms
    unfold driftEvents at he
    rcases List.mem_append.mp he with h1 | h1
    · rcases List.mem_map.mp h1 with ⟨j, -, hj⟩
      exact DriftEvent.noConfusion hj
    · rcases detectTrace_mem start 0 streams _ h1 with ⟨j, -, hj⟩ | hj
      · exact DriftEvent.noConfusion hj
      · exact DriftEvent.sleep.inj hj
  · rw [hdrop]
    exact (pollStacks_detectTrace_sorted start 0 streams).1
  · exact fun b hb => detectStackDrift_ok_terminal start streams b hb

/-- C5 (witness): the structure theorem applied to the concrete slow/fast
pair: a poll event is not a start event, the sleep in its trace is the 5000
ms interval, and the slow stream contains a terminal response since the
poller returned a boolean. -/
theorem polling_sequential_structure_witness :
    isStartEvent (DriftEvent.poll 1) = false ∧
    (5000 : Nat) = 5000 ∧
    (∃ r, r ∈ [inProgress 0, doneInSync 5000] ∧
      r.DetectionStatus ≠ DetectionStatus.DETECTION_IN_PROGRESS) := by
  have h := polling_sequential_structure 0 exSlowFast
  refine ⟨h.2.1 (DriftEvent.poll 1) (by decide), ?_, ?_⟩
  · exact h.2.2.1 (DriftEvent.sleep 5000) (by decide) 5000 rfl
  · exact h.2.2.2.2 true rfl [inProgress 0, doneInSync 5000] (by decide)

/-- C6: when the poller completes without error, its boolean is the logical
OR, over the requests, of "the first terminal response's stack drift status
is DRIFTED"; terminal `IN_SYNC` or `NOT_CHECKED` never set it, so the result
is `false` iff no request's terminal status is `DRIFTED`. -/
theorem drift_flag_is_or_of_terminal_drifted (start : Int)
    (streams : List (List DriftPollResponse)) (b : Bool)
    (h : detectStackDrift start streams = Except.ok b) :
    b = streams.any terminalDrifted := by
  induction streams generalizing b with
  | nil =>
    simp only [detectStackDrift, Except.ok.injEq] at h
    rw [List.any_nil, ← h]
  | cons s rest ih =>
    cases hw : waitDriftDetection start s with
    | error e =>
      simp only [detectStackDrift, hw] at h
      exact Except.noConfusion h
    | ok r =>
      cases hr : detectStackDrift start rest with
      | error e =>
        simp only [detectStackDrift, hw, hr] at h
        exact Except.noConfusion h
      | ok b' =>
        simp only [detectStackDrift, hw, hr, Except.ok.injEq] at h
        rw [List.any_cons, ← h, ih b' hr]
        have hterm : terminalDrifted s = decide (r.StackDriftStatus = StackDriftStatus.DRIFTED) := by
          unfold terminalDrifted
          rw [waitDriftDetection_ok_find start s r hw]
        rw [hterm]

/-- C6 (witness): with one IN_SYNC request and one DRIFTED request, the
poller returns `true`, which equals the OR of the terminal judgements. -/
theorem drift_flag_witness :
    (true : Bool) = [[doneInSync 0], [doneDrifted 0]].any terminalDrifted :=
  drift_flag_is_or_of_terminal_drifted 0 [[doneInSync 0], [doneDrifted 0]] true rfl

/-- C10: the Timeout is only reachable from a poll that observes
`DETECTION_IN_PROGRESS` past the deadline — in every execution in which each
status poll made returns a terminal detection status (each stream starts
with a terminal response), the poller returns a boolean normally, no matter
how late the responses arrive. -/
theorem terminal_polls_never_timeout (start : Int) (streams : List (List DriftPollResponse))
    (h : ∀ s ∈ streams, ∃ r rest, s = r :: rest ∧
      r.DetectionStatus ≠ DetectionStatus.DETECTION_IN_PROGRESS) :
    ∃ b, detectStackDrift start streams = Except.ok b := by
  induction streams with
  | nil => exact ⟨false, rfl⟩
  | cons s rest ih =>
    rcases h s (List.mem_cons_self s rest) with ⟨r, rs, hs, hr⟩
    have hw : waitDriftDetection start s = Except.ok r := by
      rw [hs]
      simp only [waitDriftDetection]
      rw [if_pos hr]
    rcases ih (fun s' hs' => h s' (List.mem_cons_of_mem s hs')) with ⟨b, hb⟩
    refine ⟨decide (r.StackDriftStatus = StackDriftStatus.DRIFTED) || b, ?_⟩
    simp only [detectStackDrift]
    rw [hw, hb]

/-- C10 (witness): a request whose single poll is terminal but observed at
time 1000000 ms — far past the 300000 ms deadline — still completes without
a Timeout. -/
theorem terminal_polls_never_timeout_witness :
    ∃ b, detectStackDrift 0 [[doneInSync 1000000]] = Except.ok b :=
  terminal_polls_never_timeout 0 [[doneInSync 1000000]] (by
    intro s hs
    rw [List.mem_singleton] at hs
    subst hs
    exact ⟨doneInSync 1000000, [], rfl, by decide⟩)

end CdkPlan
